import Mathlib

/-!
Shallow embedding of `src/server.js` (a Node/Express proxy that chains an
OAuth client-credentials token exchange, a destination-configuration lookup
and an OData entity fetch), together with theorems settling the frozen
claims about it.

Modelling conventions:
  * A JavaScript value reachable in this program is a `JsValue`
    (`undefined` is `JsValue.undef`).
  * Each outbound axios call is a `Request`; the upstream universe is a
    `World`, a function from `Request` to either an axios error (thrown on
    non-2xx / network failure) or the parsed response body (`response.data`).
  * Each helper returns its result together with the ordered trace of
    outbound requests it issued, so "exactly one call", "no retry" and
    "no outbound call" are statements about that trace.
  * A thrown JS error is `Except.error`: `JsErr.axios e` for axios
    rejections, `JsErr.typeError` for property access / method calls on
    unsuitable values (e.g. `destConfig.URL.replace` when `URL` is absent).
-/

namespace NorthwindProxy

set_option maxRecDepth 10000

/-- JavaScript values as they occur in this program (parsed JSON bodies,
`undefined` from absent property reads). -/
inductive JsValue where
  | undef
  | null
  | bool (b : Bool)
  | num (n : Int)
  | str (s : String)
  | arr (xs : List JsValue)
  | obj (fields : List (String × JsValue))
  deriving Repr

/-- JavaScript property access `v[k]`: on an object, the field's value or
`undefined` when absent; on other non-nullish values, `undefined` (none of
the accessed names exists on primitives); on `null`/`undefined` it throws a
TypeError, modelled as `Except.error`. -/
def jsGetE : JsValue → String → Except Unit JsValue
  | .undef, _ => .error ()
  | .null, _ => .error ()
  | .obj fields, k => .ok ((fields.lookup k).getD .undef)
  | _, _ => .ok .undef

mutual

/-- JavaScript string coercion, as used by the template literal
`Bearer ${accessToken}` in `getDestinationConfig`. -/
def jsToString : JsValue → String
  | .undef => "undefined"
  | .null => "null"
  | .bool true => "true"
  | .bool false => "false"
  | .num n => toString n
  | .str s => s
  | .arr xs => jsJoin xs
  | .obj _ => "[object Object]"

/-- Models `Array.prototype.join` with separator `,`: elements separated by commas, with
`null`/`undefined` elements rendered as the empty string. -/
def jsJoin : List JsValue → String
  | [] => ""
  | [.undef] => ""
  | [.null] => ""
  | [x] => jsToString x
  | .undef :: xs => "," ++ jsJoin xs
  | .null :: xs => "," ++ jsJoin xs
  | x :: xs => jsToString x ++ "," ++ jsJoin xs

end

/-- The error raised by a failed axios call: non-2xx responses carry
`response` with the upstream status and body (used only for logging);
network-level failures carry none. -/
structure AxiosError where
  message : String
  response : Option (Nat × JsValue)
  deriving Repr

/-- A JavaScript exception observable at the router boundary. -/
inductive JsErr where
  | axios (e : AxiosError)
  | typeError
  deriving Repr

inductive Method where
  | get
  | post
  deriving Repr, DecidableEq

/-- An outbound HTTP request as issued through axios: `auth` is the axios
Basic-auth option, `authorization` an explicit `Authorization` header value,
`formBody` the URL-encoded form parameters of a POST. -/
structure Request where
  method : Method
  url : String
  auth : Option (String × String) := none
  authorization : Option String := none
  formBody : List (String × String) := []
  deriving Repr, DecidableEq

/-- The upstream universe: what every outbound request would return,
`Except.error` when axios would reject (non-2xx or network failure),
`Except.ok` with the parsed `response.data` otherwise. -/
structure World where
  respond : Request → Except AxiosError JsValue

/-- The bound destination-service credentials (`services.dest` from
`xsenv.getServices`), loaded once at startup. -/
structure DestService where
  url : String
  clientid : String
  clientsecret : String
  uri : String
  deriving Repr, DecidableEq

/-- The token-exchange request built by `getDestinationToken`:
POST `destService.url + "/oauth/token"`, form body
`grant_type=client_credentials`, Basic auth from clientid/clientsecret. -/
def tokenRequest (ds : DestService) : Request :=
  { method := .post
    url := ds.url ++ "/oauth/token"
    auth := some (ds.clientid, ds.clientsecret)
    formBody := [("grant_type", "client_credentials")] }

/-- Function `getDestinationToken` from `src/server.js` lines 27-41: one POST to the
token endpoint, returning `response.data.access_token` (which is `undefined`
when the body is not an object carrying that field). -/
def getDestinationToken (w : World) (ds : DestService) :
    Except JsErr JsValue × List Request :=
  match w.respond (tokenRequest ds) with
  | .error e => (.error (.axios e), [tokenRequest ds])
  | .ok data =>
    match jsGetE data "access_token" with
    | .error _ => (.error .typeError, [tokenRequest ds])
    | .ok tok => (.ok tok, [tokenRequest ds])

/-- The destination-configuration request built by `getDestinationConfig`:
GET `destService.uri + "/destination-configuration/v1/destinations/" + name`
where `name` is `process.env.DESTINATION_NAME || "Products"`, with header
`Authorization: Bearer ${accessToken}`. -/
def configRequest (ds : DestService) (envDestName : Option String)
    (accessToken : JsValue) : Request :=
  { method := .get
    url := ds.uri ++ "/destination-configuration/v1/destinations/" ++
      envDestName.getD "Products"
    authorization := some ("Bearer " ++ jsToString accessToken) }

/-- Function `getDestinationConfig` from `src/server.js` lines 44-57: reads the
destination name from the environment on each call, issues one GET with the
bearer header, returns `response.data.destinationConfiguration`. -/
def getDestinationConfig (w : World) (ds : DestService)
    (envDestName : Option String) (accessToken : JsValue) :
    Except JsErr JsValue × List Request :=
  match w.respond (configRequest ds envDestName accessToken) with
  | .error e => (.error (.axios e), [configRequest ds envDestName accessToken])
  | .ok data =>
    match jsGetE data "destinationConfiguration" with
    | .error _ => (.error .typeError, [configRequest ds envDestName accessToken])
    | .ok cfg => (.ok cfg, [configRequest ds envDestName accessToken])

/-- Models `url.replace` with the regex matching one trailing slash: the regex matches a single `/` at the end of
the string, so exactly one trailing slash is removed when present. -/
def stripTrailingSlash (s : String) : String :=
  if s.data.getLast? = some '/' then String.mk s.data.dropLast else s

/-- The composed OData URL `${baseUrl}/${entity}?$format=json` of
`fetchODataEntity`, after trailing-slash stripping. -/
def composeODataUrl (resolvedUrl : String) (entity : String) : String :=
  stripTrailingSlash resolvedUrl ++ "/" ++ entity ++ "?$format=json"

/-- The final unauthenticated data request of `fetchODataEntity`. -/
def dataRequest (odataUrl : String) : Request :=
  { method := .get, url := odataUrl }

/-- Function `fetchODataEntity` from `src/server.js` lines 60-77: token exchange,
destination lookup, then `destConfig.URL.replace(/\/$/, "")` (a TypeError
when `URL` is not a string, e.g. absent) and the unauthenticated data GET,
whose parsed body is returned as-is. -/
def fetchODataEntity (w : World) (ds : DestService)
    (envDestName : Option String) (entity : String) :
    Except JsErr JsValue × List Request :=
  match getDestinationToken w ds with
  | (.error e, tr1) => (.error e, tr1)
  | (.ok accessToken, tr1) =>
    match getDestinationConfig w ds envDestName accessToken with
    | (.error e, tr2) => (.error e, tr1 ++ tr2)
    | (.ok destConfig, tr2) =>
      match jsGetE destConfig "URL" with
      | .error _ => (.error .typeError, tr1 ++ tr2)
      | .ok urlVal =>
        match urlVal with
        | .str url =>
          match w.respond (dataRequest (composeODataUrl url entity)) with
          | .error e =>
            (.error (.axios e), tr1 ++ tr2 ++ [dataRequest (composeODataUrl url entity)])
          | .ok data =>
            (.ok data, tr1 ++ tr2 ++ [dataRequest (composeODataUrl url entity)])
        | _ => (.error .typeError, tr1 ++ tr2)

/-- The allow-list from `src/server.js` lines 80-89, in source order. -/
def ALLOWED_ENTITIES : List String :=
  ["Categories", "CustomerDemographics", "Customers", "Employees",
   "Order_Details", "Orders", "Products", "Regions"]

/-- An HTTP response produced by a route handler: `res.json(data)`
(status 200) or a plain-text `res.status(s).send(body)` (`res.send` of a
string defaults to status 200). -/
inductive HttpOut where
  | json (status : Nat) (v : JsValue)
  | text (status : Nat) (body : String)
  deriving Repr

/-- The HTTP status of a response. -/
def HttpOut.statusOf : HttpOut → Nat
  | .json s _ => s
  | .text s _ => s

/-- Handler of `GET /` (`src/server.js` lines 94-98): a constant text
response and no outbound request. -/
def handleRoot : HttpOut × List Request :=
  (.text 200 "✅ Northwind Node app using Destination 'Products' is running. Call /products, /Customers or /odata/Products etc.", [])

/-- Handler of `GET /products` (lines 101-112): always fetches `Products`;
on any thrown error it answers 500 with a fixed text. -/
def handleProducts (w : World) (ds : DestService) (envDestName : Option String) :
    HttpOut × List Request :=
  match fetchODataEntity w ds envDestName "Products" with
  | (.ok data, tr) => (.json 200 data, tr)
  | (.error _, tr) => (.text 500 "Failed to fetch Products", tr)

/-- The 400 body sent for a non-allow-listed entity. -/
def notAllowedBody (entity : String) : String :=
  "Entity '" ++ entity ++ "' is not allowed. Allowed: " ++
    String.intercalate ", " ALLOWED_ENTITIES

/-- Handler of `GET /odata/:entity` (lines 115-139): exact, case-sensitive
allow-list check first (400, no fetch); otherwise fetch and answer 200 JSON
or 500 with `Failed to fetch entity '<name>'`. -/
def handleOdataEntity (w : World) (ds : DestService) (envDestName : Option String)
    (entity : String) : HttpOut × List Request :=
  if ALLOWED_ENTITIES.contains entity then
    match fetchODataEntity w ds envDestName entity with
    | (.ok data, tr) => (.json 200 data, tr)
    | (.error _, tr) =>
      (.text 500 ("Failed to fetch entity '" ++ entity ++ "'"), tr)
  else
    (.text 400 (notAllowedBody entity), [])

/-- Handler registered for `GET /{entity}` for each allow-listed entity
(lines 142-155): fetch and answer 200 JSON or 500 with
`Failed to fetch <name>`. -/
def handleShortcutEntity (w : World) (ds : DestService) (envDestName : Option String)
    (entity : String) : HttpOut × List Request :=
  match fetchODataEntity w ds envDestName entity with
  | (.ok data, tr) => (.json 200 data, tr)
  | (.error _, tr) => (.text 500 ("Failed to fetch " ++ entity), tr)

/-- Outcome of process startup (lines 12-24 and 158-160). -/
inductive StartupResult where
  | exited (code : Nat)
  | listening (port : Nat) (ds : DestService)
  deriving Repr, DecidableEq

/-- Startup: `xsenv.getServices` either yields the bound destination
service or throws, in which case the process logs and calls
`process.exit(1)` before `app.listen` ever runs; otherwise the server
listens on `process.env.PORT || 5000`. -/
def startup (binding : Option DestService) (envPort : Option Nat) : StartupResult :=
  match binding with
  | none => .exited 1
  | some ds => .listening (envPort.getD 5000) ds

/-! Concrete fixtures used by witnesses and counterexamples. -/

/-- A concrete service binding. -/
def ds0 : DestService :=
  { url := "https://auth.example.com"
    clientid := "cid"
    clientsecret := "csec"
    uri := "https://destcfg.example.com" }

/-- A world in which every outbound call fails at the network level. -/
def errW : World :=
  { respond := fun _ => .error { message := "boom", response := none } }

/-- The upstream body returned for the Northwind `Products` request in the
happy-path world. -/
def productsBody : JsValue :=
  .obj [("value", .arr [.obj [("ProductID", .num 1), ("ProductName", .str "Chai")]])]

/-- A happy-path world: the token endpoint returns an access token, the
destination service resolves to the public Northwind URL (with trailing
slash), and every other URL returns `productsBody`. -/
def okW : World :=
  { respond := fun r =>
      if r.url = "https://auth.example.com/oauth/token" then
        .ok (.obj [("access_token", .str "tok123")])
      else if r.url = "https://destcfg.example.com/destination-configuration/v1/destinations/Products" then
        .ok (.obj [("destinationConfiguration",
          .obj [("URL", .str "https://services.odata.org/northwind/northwind.svc/")])])
      else
        .ok productsBody }

/-- A world whose token endpoint answers 200 with a body that is not JSON:
axios then hands the raw text through as `response.data`, a string. -/
def malformedTokenW : World :=
  { respond := fun r =>
      if r.url = "https://auth.example.com/oauth/token" then
        .ok (.str "<html>not json</html>")
      else
        .error { message := "boom", response := none } }

/-- A world whose destination service resolves every destination to a
configuration object that has no `URL` field. -/
def noUrlW : World :=
  { respond := fun r =>
      if r.url = "https://auth.example.com/oauth/token" then
        .ok (.obj [("access_token", .str "tok123")])
      else
        .ok (.obj [("destinationConfiguration", .obj [("owner", .str "me")])]) }

/-- Substring test: `containsSubstr s pat` holds when `pat` occurs
contiguously inside `s`. -/
def containsSubstr (s pat : String) : Bool :=
  decide (pat.data <:+: s.data)

/-! Helper lemmas shared by several claim proofs. -/

theorem containsSubstr_of_append (front tail pat : String)
    (h : containsSubstr tail pat = true) :
    containsSubstr (front ++ tail) pat = true := by
  unfold containsSubstr at h ⊢
  obtain ⟨s, t, hst⟩ := of_decide_eq_true h
  apply decide_eq_true
  refine ⟨front.data ++ s, t, ?_⟩
  simp only [String.data_append, List.append_assoc, ← hst]

theorem getDestinationToken_trace (w : World) (ds : DestService) :
    (getDestinationToken w ds).2 = [tokenRequest ds] := by
  unfold getDestinationToken
  cases w.respond (tokenRequest ds) with
  | error e => rfl
  | ok dta =>
    dsimp only
    cases jsGetE dta "access_token" with
    | error u => rfl
    | ok tok => rfl

theorem getDestinationConfig_trace (w : World) (ds : DestService)
    (envDestName : Option String) (accessToken : JsValue) :
    (getDestinationConfig w ds envDestName accessToken).2 =
      [configRequest ds envDestName accessToken] := by
  unfold getDestinationConfig
  cases w.respond (configRequest ds envDestName accessToken) with
  | error e => rfl
  | ok dta =>
    dsimp only
    cases jsGetE dta "destinationConfiguration" with
    | error u => rfl
    | ok cfg => rfl

theorem stripTrailingSlash_concat_slash (base : String) :
    stripTrailingSlash (base ++ "/") = base := by
  unfold stripTrailingSlash
  have hd : (base ++ "/").data = base.data ++ ['/'] := rfl
  rw [hd, List.getLast?_concat, List.dropLast_concat]
  simp

/-! Claim theorems. -/

/-- C9: `GET /` performs no outbound HTTP call (its request trace is empty)
and always returns status 200 with a fixed static text body. -/
theorem c9_root_static_no_outbound :
    handleRoot =
      (.text 200 "✅ Northwind Node app using Destination 'Products' is running. Call /products, /Customers or /odata/Products etc.",
       []) :=
  rfl

/-- C1 counterexample: for the allow-listed entity `Orders` and a world
where the token exchange fails, `GET /odata/Orders` answers
500 `Failed to fetch entity 'Orders'` while `GET /Orders` answers
500 `Failed to fetch Orders` — the two failure bodies are not the same, so
the claim that both routes produce "the same plain-text body" on the same
error is false. -/
theorem c1_failure_bodies_differ :
    (handleOdataEntity errW ds0 none "Orders").1 =
      .text 500 "Failed to fetch entity 'Orders'" ∧
    (handleShortcutEntity errW ds0 none "Orders").1 =
      .text 500 "Failed to fetch Orders" ∧
    ("Failed to fetch entity 'Orders'" : String) ≠ "Failed to fetch Orders" :=
  ⟨rfl, rfl, by decide⟩

/-- C1 (amended): for every allow-listed entity, `GET /odata/{name}` and
`GET /{name}` invoke the identical fetch path (`fetchODataEntity` with that
name, hence identical outbound request traces) and produce the identical
200 JSON body on success; on the same error both return status 500 with a
short plain-text body, but the two bodies differ
(`Failed to fetch entity '<name>'` versus `Failed to fetch <name>`). -/
theorem c1_routes_same_fetch_path (w : World) (ds : DestService)
    (envDestName : Option String) (entity : String)
    (hmem : ALLOWED_ENTITIES.contains entity = true) :
    (handleOdataEntity w ds envDestName entity).2 =
      (handleShortcutEntity w ds envDestName entity).2 ∧
    (∀ dta tr, fetchODataEntity w ds envDestName entity = (.ok dta, tr) →
      handleOdataEntity w ds envDestName entity = (.json 200 dta, tr) ∧
      handleShortcutEntity w ds envDestName entity = (.json 200 dta, tr)) ∧
    (∀ e tr, fetchODataEntity w ds envDestName entity = (.error e, tr) →
      handleOdataEntity w ds envDestName entity =
        (.text 500 ("Failed to fetch entity '" ++ entity ++ "'"), tr) ∧
      handleShortcutEntity w ds envDestName entity =
        (.text 500 ("Failed to fetch " ++ entity), tr)) := by
  have hmem' : entity ∈ ALLOWED_ENTITIES := by simpa using hmem
  refine ⟨?_, ?_, ?_⟩
  · rcases h : fetchODataEntity w ds envDestName entity with ⟨res, tr⟩
    cases res <;> simp [handleOdataEntity, handleShortcutEntity, hmem', h]
  · intro dta tr h
    simp [handleOdataEntity, handleShortcutEntity, hmem', h]
  · intro e tr h
    simp [handleOdataEntity, handleShortcutEntity, hmem', h]

/-- C1 witness: the amended theorem applied at the concrete entity
`Orders`, a concrete binding and a concrete (all-failing) world. -/
theorem c1_routes_same_fetch_path_witness :
    ALLOWED_ENTITIES.contains "Orders" = true ∧
    (handleOdataEntity errW ds0 none "Orders").2 =
      (handleShortcutEntity errW ds0 none "Orders").2 :=
  ⟨by decide, (c1_routes_same_fetch_path errW ds0 none "Orders" (by decide)).1⟩

/-- C2 counterexample: the code removes at most one trailing slash
(`url.replace` with a non-global single-slash regex), so a resolved base
URL ending in two slashes composes to a URL that does contain `//` right
before the entity name, and differs from the URL composed from the base
without trailing slashes — refuting "ending in one or more `/`". -/
theorem c2_double_slash_counterexample :
    composeODataUrl "https://x//" "Products" = "https://x//Products?$format=json" ∧
    composeODataUrl "https://x//" "Products" ≠ composeODataUrl "https://x" "Products" := by
  constructor
  · rfl
  · decide

/-- C2 (amended): the Entity Fetcher strips exactly one trailing slash
before composing `{baseUrl}/{entity}?$format=json`: for every base URL not
itself ending in `/`, the base with a single trailing slash appended
composes to the very same URL as the bare base, namely
`base ++ "/" ++ entity ++ "?$format=json"` (no double slash before the
entity name); bases ending in two or more slashes keep the extra ones. -/
theorem c2_single_trailing_slash_stripped (base entity : String)
    (h : base.data.getLast? ≠ some '/') :
    composeODataUrl (base ++ "/") entity = composeODataUrl base entity ∧
    composeODataUrl (base ++ "/") entity = base ++ "/" ++ entity ++ "?$format=json" := by
  have h1 := stripTrailingSlash_concat_slash base
  have h2 : stripTrailingSlash base = base := by
    unfold stripTrailingSlash
    rw [if_neg h]
  constructor
  · unfold composeODataUrl
    rw [h1, h2]
  · unfold composeODataUrl
    rw [h1]

/-- C2 witness: the amended theorem applied at the concrete Northwind base
URL and entity `Products`. -/
theorem c2_single_trailing_slash_stripped_witness :
    ("https://services.odata.org/northwind/northwind.svc" : String).data.getLast? ≠ some '/' ∧
    composeODataUrl ("https://services.odata.org/northwind/northwind.svc" ++ "/") "Products" =
      composeODataUrl "https://services.odata.org/northwind/northwind.svc" "Products" :=
  ⟨by decide,
   (c2_single_trailing_slash_stripped "https://services.odata.org/northwind/northwind.svc"
     "Products" (by decide)).1⟩

/-- C3: for every entity string not in the allow-list (exact,
case-sensitive membership), `GET /odata/{entity}` answers 400 with a
plain-text body listing all eight allowed names, for every upstream world
(hence regardless of upstream state), and issues no outbound request at
all (the three-step fetch chain is not invoked). -/
theorem c3_invalid_entity_rejected (w : World) (ds : DestService)
    (envDestName : Option String) (entity : String)
    (h : entity ∉ ALLOWED_ENTITIES) :
    handleOdataEntity w ds envDestName entity = (.text 400 (notAllowedBody entity), []) ∧
    (∀ name ∈ ALLOWED_ENTITIES, containsSubstr (notAllowedBody entity) name = true) := by
  constructor
  · simp [handleOdataEntity, h]
  · intro name hname
    have hsub : containsSubstr
        ("' is not allowed. Allowed: " ++ String.intercalate ", " ALLOWED_ENTITIES)
        name = true := by
      fin_cases hname <;> decide
    have hre : notAllowedBody entity =
        ("Entity '" ++ entity) ++
          ("' is not allowed. Allowed: " ++ String.intercalate ", " ALLOWED_ENTITIES) := by
      apply String.ext
      simp [notAllowedBody]
    rw [hre]
    exact containsSubstr_of_append _ _ _ hsub

/-- C3 witness: the theorem applied at the concrete entity `Foo` (not in
the allow-list) in a failing upstream world. -/
theorem c3_invalid_entity_rejected_witness :
    "Foo" ∉ ALLOWED_ENTITIES ∧
    handleOdataEntity errW ds0 none "Foo" = (.text 400 (notAllowedBody "Foo"), []) :=
  ⟨by decide, (c3_invalid_entity_rejected errW ds0 none "Foo" (by decide)).1⟩

/-- C4: in a world where the credentials are valid (the token exchange
succeeds with some token) and the destination resolves to
`https://services.odata.org/northwind/northwind.svc/`, `GET /Products`
produces exactly the three-request trace whose sole data call is
`GET https://services.odata.org/northwind/northwind.svc/Products?$format=json`
with no Basic auth and no Authorization header, and the upstream JSON body
of that call is returned verbatim with status 200. -/
theorem c4_products_happy_path (w : World) (ds : DestService) (tok : String)
    (dta : JsValue)
    (htok : w.respond (tokenRequest ds) = .ok (.obj [("access_token", .str tok)]))
    (hcfg : w.respond (configRequest ds none (.str tok)) =
      .ok (.obj [("destinationConfiguration",
        .obj [("URL", .str "https://services.odata.org/northwind/northwind.svc/")])]))
    (hdata : w.respond
      (dataRequest "https://services.odata.org/northwind/northwind.svc/Products?$format=json") =
      .ok dta) :
    handleShortcutEntity w ds none "Products" =
      (.json 200 dta,
       [tokenRequest ds, configRequest ds none (.str tok),
        dataRequest "https://services.odata.org/northwind/northwind.svc/Products?$format=json"]) ∧
    (dataRequest "https://services.odata.org/northwind/northwind.svc/Products?$format=json").auth =
      none ∧
    (dataRequest "https://services.odata.org/northwind/northwind.svc/Products?$format=json").authorization =
      none := by
  refine ⟨?_, rfl, rfl⟩
  have h1 : getDestinationToken w ds = (.ok (.str tok), [tokenRequest ds]) := by
    simp [getDestinationToken, htok, jsGetE, List.lookup]
  have h2 : getDestinationConfig w ds none (.str tok) =
      (.ok (.obj [("URL", .str "https://services.odata.org/northwind/northwind.svc/")]),
       [configRequest ds none (.str tok)]) := by
    simp [getDestinationConfig, hcfg, jsGetE, List.lookup]
  have hurl : composeODataUrl "https://services.odata.org/northwind/northwind.svc/" "Products" =
      "https://services.odata.org/northwind/northwind.svc/Products?$format=json" := rfl
  simp [handleShortcutEntity, fetchODataEntity, h1, h2, jsGetE, List.lookup, hurl, hdata]

/-- C4 witness: the theorem applied in the concrete happy-path world. -/
theorem c4_products_happy_path_witness :
    handleShortcutEntity okW ds0 none "Products" =
      (.json 200 productsBody,
       [tokenRequest ds0, configRequest ds0 none (.str "tok123"),
        dataRequest "https://services.odata.org/northwind/northwind.svc/Products?$format=json"]) :=
  (c4_products_happy_path okW ds0 "tok123" productsBody rfl rfl rfl).1

/-- C5: whenever the three-call chain throws (whatever the error, e.g. a
failing token exchange), `GET /products` answers exactly
500 `Failed to fetch Products`, `GET /odata/{allowed}` answers exactly
500 `Failed to fetch entity '<name>'` and `GET /{allowed}` answers exactly
500 `Failed to fetch <name>` — fixed strings that do not depend on the
error, so the upstream status code and body never reach the HTTP response;
the handlers are total functions, so no request terminates the process. -/
theorem c5_error_policy (w : World) (ds : DestService) (envDestName : Option String) :
    (∀ e tr, fetchODataEntity w ds envDestName "Products" = (.error e, tr) →
      (handleProducts w ds envDestName).1 = .text 500 "Failed to fetch Products") ∧
    (∀ entity, entity ∈ ALLOWED_ENTITIES →
      ∀ e tr, fetchODataEntity w ds envDestName entity = (.error e, tr) →
        (handleOdataEntity w ds envDestName entity).1 =
          .text 500 ("Failed to fetch entity '" ++ entity ++ "'") ∧
        (handleShortcutEntity w ds envDestName entity).1 =
          .text 500 ("Failed to fetch " ++ entity)) := by
  refine ⟨?_, ?_⟩
  · intro e tr h
    simp [handleProducts, h]
  · intro entity hmem e tr h
    constructor
    · simp [handleOdataEntity, hmem, h]
    · simp [handleShortcutEntity, h]

/-- C5 witness: the theorem applied in the all-failing world, where the
chain fails at the token exchange. -/
theorem c5_error_policy_witness :
    (handleProducts errW ds0 none).1 = .text 500 "Failed to fetch Products" :=
  (c5_error_policy errW ds0 none).1 (.axios { message := "boom", response := none })
    [tokenRequest ds0] rfl

/-- C6 counterexample: when the token endpoint answers 2xx with a malformed
(non-JSON) body, axios hands the raw string through, `access_token` on a
string is `undefined`, and `getDestinationToken` returns successfully with
`undefined` instead of propagating a failure — refuting the claim that the
Token Acquirer fails on a malformed body. -/
theorem c6_malformed_body_returns_ok_undefined :
    getDestinationToken malformedTokenW ds0 = (.ok .undef, [tokenRequest ds0]) ∧
    (getDestinationToken malformedTokenW ds0).1.isOk = true :=
  ⟨rfl, rfl⟩

/-- C6 (amended): the Token Acquirer performs exactly one HTTP POST (its
trace is the singleton `tokenRequest`) to `tokenEndpoint ++ "/oauth/token"`
with form body `grant_type=client_credentials` and Basic auth from the
bound clientId/clientSecret; it propagates the failure without retry when
the upstream returns non-2xx, and otherwise returns the `access_token`
field of the body — which is `undefined`, returned as a success, when the
body is malformed or lacks the field. -/
theorem c6_token_acquirer_contract (w : World) (ds : DestService) :
    (getDestinationToken w ds).2 = [tokenRequest ds] ∧
    (tokenRequest ds).method = .post ∧
    (tokenRequest ds).url = ds.url ++ "/oauth/token" ∧
    (tokenRequest ds).auth = some (ds.clientid, ds.clientsecret) ∧
    (tokenRequest ds).authorization = none ∧
    (tokenRequest ds).formBody = [("grant_type", "client_credentials")] ∧
    (∀ e, w.respond (tokenRequest ds) = .error e →
      (getDestinationToken w ds).1 = .error (.axios e)) ∧
    (∀ dta tok, w.respond (tokenRequest ds) = .ok dta →
      jsGetE dta "access_token" = .ok tok →
      (getDestinationToken w ds).1 = .ok tok) := by
  refine ⟨getDestinationToken_trace w ds, rfl, rfl, rfl, rfl, rfl, ?_, ?_⟩
  · intro e h
    simp [getDestinationToken, h]
  · intro dta tok h hg
    simp [getDestinationToken, h, hg]

/-- C6 witness: the amended theorem applied in the happy-path world. -/
theorem c6_token_acquirer_contract_witness :
    (getDestinationToken okW ds0).1 = .ok (.str "tok123") :=
  (c6_token_acquirer_contract okW ds0).2.2.2.2.2.2.2
    (.obj [("access_token", .str "tok123")]) (.str "tok123") rfl rfl

/-- C7: the Destination Resolver performs exactly one GET (its trace is
the singleton `configRequest`) to
`configEndpoint ++ "/destination-configuration/v1/destinations/{name}"`
where `name` is the configured destination name defaulting to `Products`,
with header `Authorization: Bearer <token>`; it propagates upstream
failures, returns the `destinationConfiguration` object otherwise, and when
that configuration lacks a `URL` field the request chain fails with an
error (a TypeError in `fetchODataEntity`), never a success. -/
theorem c7_destination_resolver_contract (w : World) (ds : DestService)
    (envDestName : Option String) (tok : JsValue) :
    (getDestinationConfig w ds envDestName tok).2 = [configRequest ds envDestName tok] ∧
    (configRequest ds envDestName tok).method = .get ∧
    (configRequest ds envDestName tok).url =
      ds.uri ++ "/destination-configuration/v1/destinations/" ++
        envDestName.getD "Products" ∧
    (configRequest ds envDestName tok).auth = none ∧
    (configRequest ds envDestName tok).authorization =
      some ("Bearer " ++ jsToString tok) ∧
    (configRequest ds envDestName tok).formBody = [] ∧
    (∀ e, w.respond (configRequest ds envDestName tok) = .error e →
      (getDestinationConfig w ds envDestName tok).1 = .error (.axios e)) ∧
    (∀ dta cfg, w.respond (configRequest ds envDestName tok) = .ok dta →
      jsGetE dta "destinationConfiguration" = .ok cfg →
      (getDestinationConfig w ds envDestName tok).1 = .ok cfg) ∧
    (∀ entity tokv tr1 cfg tr2,
      getDestinationToken w ds = (.ok tokv, tr1) →
      getDestinationConfig w ds envDestName tokv = (.ok cfg, tr2) →
      jsGetE cfg "URL" = .ok .undef →
      fetchODataEntity w ds envDestName entity = (.error .typeError, tr1 ++ tr2)) := by
  refine ⟨getDestinationConfig_trace w ds envDestName tok, rfl, rfl, rfl, rfl, rfl, ?_, ?_, ?_⟩
  · intro e h
    simp [getDestinationConfig, h]
  · intro dta cfg h hg
    simp [getDestinationConfig, h, hg]
  · intro entity tokv tr1 cfg tr2 h1 h2 hurl
    simp [fetchODataEntity, h1, h2, hurl]

/-- C7 witness: the theorem applied in a concrete world whose resolved
destination configuration carries no `URL` field. -/
theorem c7_destination_resolver_contract_witness :
    fetchODataEntity noUrlW ds0 none "Products" =
      (.error .typeError,
       [tokenRequest ds0] ++ [configRequest ds0 none (.str "tok123")]) :=
  (c7_destination_resolver_contract noUrlW ds0 none (.str "tok123")).2.2.2.2.2.2.2.2 "Products"
    (.str "tok123") [tokenRequest ds0] (.obj [("owner", .str "me")])
    [configRequest ds0 none (.str "tok123")] rfl rfl rfl

/-- C8: with the service-credential binding absent, startup exits with the
non-zero status 1 and never reaches `app.listen`, so no port is bound and no
route is reachable (`StartupResult.exited` carries no routes); with the
binding present it listens on the configured port (default 5000). This is
the only fatal path: every request handler is a total function whose
response status is 200, 400 or 500 in every world, so no request-time
failure terminates the process. -/
theorem c8_startup_binding_required :
    (∀ envPort, startup none envPort = .exited 1) ∧
    (1 : Nat) ≠ 0 ∧
    (∀ b envPort, startup (some b) envPort = .listening (envPort.getD 5000) b) ∧
    (∀ w ds envDestName entity,
      ((handleOdataEntity w ds envDestName entity).1.statusOf = 200 ∨
       (handleOdataEntity w ds envDestName entity).1.statusOf = 400 ∨
       (handleOdataEntity w ds envDestName entity).1.statusOf = 500) ∧
      ((handleProducts w ds envDestName).1.statusOf = 200 ∨
       (handleProducts w ds envDestName).1.statusOf = 500) ∧
      ((handleShortcutEntity w ds envDestName entity).1.statusOf = 200 ∨
       (handleShortcutEntity w ds envDestName entity).1.statusOf = 500)) := by
  refine ⟨fun _ => rfl, by decide, fun b p => rfl, ?_⟩
  intro w ds envDestName entity
  refine ⟨?_, ?_, ?_⟩
  · by_cases hmem : entity ∈ ALLOWED_ENTITIES
    · rcases h : fetchODataEntity w ds envDestName entity with ⟨res, tr⟩
      cases res <;> simp [handleOdataEntity, hmem, h, HttpOut.statusOf]
    · simp [handleOdataEntity, hmem, HttpOut.statusOf]
  · rcases h : fetchODataEntity w ds envDestName "Products" with ⟨res, tr⟩
    cases res <;> simp [handleProducts, h, HttpOut.statusOf]
  · rcases h : fetchODataEntity w ds envDestName entity with ⟨res, tr⟩
    cases res <;> simp [handleShortcutEntity, h, HttpOut.statusOf]

/-- C10: the destination name is read from the `DESTINATION_NAME`
environment variable inside the per-request destination lookup, not
captured at startup: the configuration request of a request chain is built
from the environment value at handling time (defaulting to `Products` when
unset), so two requests handled under different values look up different
destinations, while the first request of every chain — the token exchange —
is built solely from the credentials loaded at startup. -/
theorem c10_destination_name_read_per_request (w : World) (ds : DestService)
    (envDestName : Option String) (entity : String) (tok : JsValue)
    (tr1 : List Request)
    (htok : getDestinationToken w ds = (.ok tok, tr1)) :
    (∃ rest, (fetchODataEntity w ds envDestName entity).2 =
      tr1 ++ configRequest ds envDestName tok :: rest) ∧
    (configRequest ds envDestName tok).url =
      ds.uri ++ "/destination-configuration/v1/destinations/" ++
        envDestName.getD "Products" ∧
    (fetchODataEntity w ds envDestName entity).2.head? = some (tokenRequest ds) := by
  have htr1 : tr1 = [tokenRequest ds] := by
    have h := getDestinationToken_trace w ds
    rw [htok] at h
    simpa using h
  have hmain : ∃ rest, (fetchODataEntity w ds envDestName entity).2 =
      tr1 ++ configRequest ds envDestName tok :: rest := by
    have htr2 := getDestinationConfig_trace w ds envDestName tok
    rcases h2 : getDestinationConfig w ds envDestName tok with ⟨res2, tr2⟩
    rw [h2] at htr2
    simp only at htr2
    subst htr2
    cases res2 with
    | error e => exact ⟨[], by simp [fetchODataEntity, htok, h2]⟩
    | ok cfg =>
      cases hurl : jsGetE cfg "URL" with
      | error u => exact ⟨[], by simp [fetchODataEntity, htok, h2, hurl]⟩
      | ok urlVal =>
        cases urlVal with
        | str url =>
          cases hdat : w.respond (dataRequest (composeODataUrl url entity)) with
          | error e =>
            exact ⟨[dataRequest (composeODataUrl url entity)],
              by simp [fetchODataEntity, htok, h2, hurl, hdat]⟩
          | ok dta =>
            exact ⟨[dataRequest (composeODataUrl url entity)],
              by simp [fetchODataEntity, htok, h2, hurl, hdat]⟩
        | undef => exact ⟨[], by simp [fetchODataEntity, htok, h2, hurl]⟩
        | null => exact ⟨[], by simp [fetchODataEntity, htok, h2, hurl]⟩
        | bool b => exact ⟨[], by simp [fetchODataEntity, htok, h2, hurl]⟩
        | num n => exact ⟨[], by simp [fetchODataEntity, htok, h2, hurl]⟩
        | arr xs => exact ⟨[], by simp [fetchODataEntity, htok, h2, hurl]⟩
        | obj fs => exact ⟨[], by simp [fetchODataEntity, htok, h2, hurl]⟩
  obtain ⟨rest, hrest⟩ := hmain
  refine ⟨⟨rest, hrest⟩, rfl, ?_⟩
  rw [hrest, htr1]
  rfl

/-- C10 witness: the theorem applied with `DESTINATION_NAME=MyDest` set in
the environment at request time, in the happy-path world. -/
theorem c10_destination_name_read_per_request_witness :
    (configRequest ds0 (some "MyDest") (.str "tok123")).url =
      ds0.uri ++ "/destination-configuration/v1/destinations/" ++
        (some "MyDest").getD "Products" :=
  (c10_destination_name_read_per_request okW ds0 (some "MyDest") "Products"
    (.str "tok123") [tokenRequest ds0] rfl).2.1

end NorthwindProxy
